import Mathlib

/-!
Verification of the call processing engine of `callattendant`
(`src/callattendant/app.py`), shallowly embedded in Lean 4.

The engine is `CallAttendant.run` together with `CallAttendant.answer_call`
and `CallAttendant.handle_caller`.  External collaborators (the modem, the
call screener, the call logger, the voicemail subsystem, the indicator
LEDs) are modelled as oracles: each per-call run is parametrised by the
results those collaborators would return, including the exceptions they
may raise.  Observable interactions with collaborators are recorded in a
trace of events; a per-call run returns its trace together with the
exception (if any) that escapes to the `except` clause of `run`'s loop.
-/

/-- A Python exception, abstracted to what the code can distinguish:
`answer_call` catches exactly the class `RuntimeError` (and subclasses),
so we track whether the exception is a `RuntimeError`, plus a message. -/
structure Exn where
  runtimeError : Bool
  msg : String
deriving DecidableEq, Repr

/-- The `KeyError` raised by `caller["NMBR"]` when the dequeued dict has no
`"NMBR"` key (`app.py` line 124).  `KeyError` is not a `RuntimeError`. -/
def keyErrorNMBR : Exn := { runtimeError := false, msg := "KeyError: NMBR" }

/-- A caller-ID record as delivered by the modem callback: Python passes a
dict; the engine reads only the `"NMBR"` key (`caller["NMBR"]`), so we model
presence/absence of that key with an `Option`, plus the optional name field
which the engine never reads. -/
structure Caller where
  nmbr : Option String
  name : Option String := none
deriving DecidableEq, Repr

/-- Observable collaborator interactions of one per-call run, in program
order.  Each constructor corresponds to one call site in `app.py`. -/
inductive Event where
  | checkWhitelist                        -- screener.is_whitelisted(caller)
  | checkBlacklist                        -- screener.is_blacklisted(caller)
  | blinkApproved                         -- approved_indicator.blink()
  | blinkBlocked                          -- blocked_indicator.blink()
  | logCaller (action reason : String)    -- logger.log_caller(caller, action, reason)
  | ringWaitEvt (i : Nat)                 -- modem.ring_event.wait(7), i-th wait of the loop
  | pickUp                                -- modem.pick_up()
  | playGreeting (greeting : String)      -- modem.play_audio(greeting)
  | recordMessage (callNo : Nat)          -- voice_mail.record_message(call_no, caller)
  | voiceMailMenu (callNo : Nat)          -- voice_mail.voice_messaging_menu(call_no, caller)
  | hangUp                                -- modem.hang_up()
deriving DecidableEq, Repr

/-- Results the hardware/voicemail collaborators return during
`answer_call`: whether `pick_up()` succeeds, and the exception (if any)
raised by each of the three possible actions. -/
structure Device where
  pickUpRes : Bool
  playAudioRes : Option Exn
  recordRes : Option Exn
  menuRes : Option Exn
deriving DecidableEq, Repr

/-- The body of `answer_call`'s `try:` block (`app.py` lines 209-222):
play the greeting if configured, then `if "record_message" in actions: ...
elif "voice_mail" in actions: ...`.  Returns the events performed and the
first exception raised (which aborts the remaining actions). -/
def runActions (dev : Device) (actions : List String) (greeting : String)
    (callNo : Nat) : List Event × Option Exn :=
  let recordOrMenu : List Event × Option Exn :=
    if actions.contains "record_message" then
      ([Event.recordMessage callNo], dev.recordRes)
    else if actions.contains "voice_mail" then
      ([Event.voiceMailMenu callNo], dev.menuRes)
    else ([], none)
  if actions.contains "greeting" then
    match dev.playAudioRes with
    | some e => ([Event.playGreeting greeting], some e)
    | none => (Event.playGreeting greeting :: recordOrMenu.1, recordOrMenu.2)
  else recordOrMenu

/-- `CallAttendant.answer_call` (`app.py` lines 201-229): call
`modem.pick_up()`; on success run the actions inside
`try ... except RuntimeError ... finally: self.modem.hang_up()`.
Returns the trace and the exception escaping `answer_call`, if any:
a `RuntimeError` is swallowed by the `except` clause, any other exception
propagates, and the `finally` clause performs `hang_up` either way. -/
def answerCall (dev : Device) (actions : List String) (greeting : String)
    (callNo : Nat) : List Event × Option Exn :=
  if dev.pickUpRes then
    let body := runActions dev actions greeting callNo
    (Event.pickUp :: body.1 ++ [Event.hangUp],
      match body.2 with
      | some e => if e.runtimeError then none else some e
      | none => none)
  else
    ([Event.pickUp], none)

/-- The ring-wait loop of `run` (`app.py` lines 177-190):
`ring_count = 1; while ring_count < rings_before_answer:` wait up to the
per-ring timeout for the next ring pulse; a successful wait increments
`ring_count`, a timeout sets `ok_to_answer = False` and breaks.

Modelled from the spec: the resettable ring signal lives in the modem
collaborator (`hardware/modem.py`), which is absent from `src/`.  Per
§4.3/§6 of the spec the signal source is reset after each consumption, so
successive waits observe distinct pulse windows; we therefore model the
signal as a stream `signals : Nat → Bool`, where `signals i` tells whether
a genuinely new ring pulse arrives within the timeout of the `i`-th wait.
The recursion fuel is `rings_before_answer - ring_count`, which decreases
by one at each successful wait exactly as the `while` condition does.
Returns `(ok_to_answer, final ring_count, indices of the waits performed)`. -/
def ringWaitGo (signals : Nat → Bool) : Nat → Nat → Nat → Bool × Nat × List Nat
  | _, ringCount, 0 => (true, ringCount, [])
  | i, ringCount, fuel + 1 =>
    if signals i then
      let r := ringWaitGo signals (i + 1) (ringCount + 1) fuel
      (r.1, r.2.1, i :: r.2.2)
    else
      (false, ringCount, [i])

/-- Entry to the ring-wait loop: `ring_count` starts at 1 ("Already had at
least 1 ring to get here"), so the loop performs at most
`rings_before_answer - 1` waits. -/
def awaitEligibility (ringsBeforeAnswer : Nat) (signals : Nat → Bool) :
    Bool × Nat × List Nat :=
  ringWaitGo signals 0 1 (ringsBeforeAnswer - 1)

/-- The outcome of one call to a membership checker or the logger: either
the returned value, or the exception it raised. -/
abbrev CollabRes (α : Type) := Except Exn α

/-- Per-call collaborator behaviour for one iteration of `run`'s loop. -/
structure Oracles where
  whitelistRes : CollabRes (Bool × String)  -- screener.is_whitelisted(caller)
  blacklistRes : CollabRes (Bool × String)  -- screener.is_blacklisted(caller)
  logRes : CollabRes Nat                    -- logger.log_caller(...) -> call_no
  signals : Nat → Bool                      -- modem.ring_event.wait(7) outcomes
  device : Device

/-- The screening outcome variables of `run` (`app.py` lines 128-156):
`caller_permitted`, `caller_blocked`, `caller_screened`, `action`,
`reason` after the three `if` statements have executed. -/
structure ScreenOut where
  permitted : Bool
  blocked : Bool
  screened : Bool
  action : String
  reason : String
deriving DecidableEq, Repr

/-- Settings gathered per category from the configuration namespaces
(`PERMITTED_`/`SCREENED_`/`BLOCKED_`). -/
structure ActionSettings where
  actions : List String
  greetingFile : String
  ringsBeforeAnswer : Nat
deriving DecidableEq, Repr

/-- Configuration consumed by `run`: the enabled screening modes
(`config['SCREENING_MODE']`, membership tested with `in`) and the three
per-category settings blocks. -/
structure Config where
  screeningMode : List String
  permitted : ActionSettings
  screened : ActionSettings
  blockedCfg : ActionSettings

/-- The blacklist `if` and the catch-all `Screened` `if` of `run`
(`app.py` lines 145-156), entered with the state left by the whitelist
branch: `permitted`, and the `action`/`reason` values current at that
point.  Note that the tuple unpacking `is_blacklisted, reason = ...`
overwrites `reason` whether or not the caller is blacklisted. -/
def screenAfterWhitelist (cfg : Config) (o : Oracles) (permitted : Bool)
    (action reason : String) (evts : List Event) :
    List Event × Except Exn ScreenOut :=
  if !permitted && cfg.screeningMode.contains "blacklist" then
    match o.blacklistRes with
    | Except.error e => (evts ++ [Event.checkBlacklist], Except.error e)
    | Except.ok (isBlacklisted, r) =>
      if isBlacklisted then
        (evts ++ [Event.checkBlacklist, Event.blinkBlocked],
          Except.ok { permitted := false, blocked := true, screened := false,
                      action := "Blocked", reason := r })
      else
        -- not permitted, not blocked: the third `if` sets Screened
        (evts ++ [Event.checkBlacklist, Event.blinkApproved],
          Except.ok { permitted := false, blocked := false, screened := true,
                      action := "Screened", reason := r })
  else if !permitted then
    -- blacklist not enabled; third `if` sets Screened, reason unchanged
    (evts ++ [Event.blinkApproved],
      Except.ok { permitted := false, blocked := false, screened := true,
                  action := "Screened", reason := reason })
  else
    -- permitted: both the blacklist `if` and the Screened `if` are skipped
    (evts, Except.ok { permitted := true, blocked := false, screened := false,
                       action := action, reason := reason })

/-- The call screening block of `run` (`app.py` lines 128-156), starting
from `caller_permitted = False; ... action = ""; reason = ""`.  The
whitelist check runs first when `"whitelist"` is an enabled mode; a match
sets `caller_permitted`, `action = "Permitted"` and blinks the approved
indicator.  An exception from a membership checker propagates. -/
def screen (cfg : Config) (o : Oracles) : List Event × Except Exn ScreenOut :=
  if cfg.screeningMode.contains "whitelist" then
    match o.whitelistRes with
    | Except.error e => ([Event.checkWhitelist], Except.error e)
    | Except.ok (isWhitelisted, r) =>
      if isWhitelisted then
        screenAfterWhitelist cfg o true "Permitted" r
          [Event.checkWhitelist, Event.blinkApproved]
      else
        screenAfterWhitelist cfg o false "" r [Event.checkWhitelist]
  else
    screenAfterWhitelist cfg o false "" "" []

/-- One iteration of the body of `run`'s `while 1: try:` block
(`app.py` lines 121-194) for one dequeued caller: read `caller["NMBR"]`
(raising `KeyError` if absent), screen, log, resolve the per-category
settings, run the ring-wait loop, and answer when `ok_to_answer` and the
action list is non-empty.  Returns the events performed and the exception
(if any) escaping to `run`'s `except` clause. -/
def processCall (cfg : Config) (o : Oracles) (c : Caller) :
    List Event × Option Exn :=
  match c.nmbr with
  | none => ([], some keyErrorNMBR)
  | some _ =>
    match screen cfg o with
    | (evts, Except.error e) => (evts, some e)
    | (evts, Except.ok s) =>
      -- log every call to the database; the event records the invocation,
      -- which happens whether or not log_caller raises
      let evts := evts ++ [Event.logCaller s.action s.reason]
      match o.logRes with
      | Except.error e => (evts, some e)
      | Except.ok callNo =>
        let settings :=
          if s.permitted then cfg.permitted
          else if s.screened then cfg.screened
          else cfg.blockedCfg
        let rw := awaitEligibility settings.ringsBeforeAnswer o.signals
        let evts := evts ++ rw.2.2.map Event.ringWaitEvt
        if rw.1 && decide (0 < settings.actions.length) then
          let a := answerCall o.device settings.actions settings.greetingFile callNo
          (evts ++ a.1, a.2)
        else
          (evts, none)

/-- `CallAttendant.run`'s loop (`app.py` lines 118-199) over a finite
prefix of the caller queue: each iteration processes one caller inside
`try: ... except Exception: pprint(e); print(...); return 1`.  Returns the
per-call traces and `some 1` when the loop terminated via `return 1`
(`none` means the modelled queue prefix was exhausted with the loop still
waiting for the next caller). -/
def runLoop (cfg : Config) : List (Caller × Oracles) → List (List Event) × Option Nat
  | [] => ([], none)
  | (c, o) :: rest =>
    match processCall cfg o c with
    | (evts, some _) => ([evts], some 1)
    | (evts, none) =>
      let r := runLoop cfg rest
      (evts :: r.1, r.2)

/-- `CallAttendant.handle_caller` (`app.py` lines 87-97): the modem
callback appends the caller dict to the synchronized queue unchanged; no
field of the dict is inspected or validated (the `DEBUG` branch only
prints). -/
def handleCaller (q : List Caller) (c : Caller) : List Caller := q ++ [c]

/-- Whether an event is an execution of the `record_message` action. -/
def isRecordEvt : Event → Bool
  | Event.recordMessage _ => true
  | _ => false

/-- Whether an event is an execution of the `voice_mail` action. -/
def isMenuEvt : Event → Bool
  | Event.voiceMailMenu _ => true
  | _ => false

/-- A trace contains an execution of the `record_message` action. -/
def hasRecord (t : List Event) : Bool := t.any isRecordEvt

/-- A trace contains an execution of the `voice_mail` action. -/
def hasMenu (t : List Event) : Bool := t.any isMenuEvt

/-! Concrete collaborator behaviours and configurations, used to
instantiate the theorems below on explicit inputs. -/

/-- A device on which `pick_up()` succeeds and no action raises. -/
def devAllOK : Device :=
  { pickUpRes := true, playAudioRes := none, recordRes := none, menuRes := none }

/-- A device on which `pick_up()` succeeds and
`voice_mail.record_message` raises an `OSError` (not a `RuntimeError`). -/
def devRecordFails : Device :=
  { pickUpRes := true, playAudioRes := none,
    recordRes := some { runtimeError := false, msg := "OSError" }, menuRes := none }

/-- A database error as raised by a membership checker or the logger;
`sqlite3.Error` is not a `RuntimeError`. -/
def sqliteErr : Exn := { runtimeError := false, msg := "sqlite3.OperationalError" }

/-- Per-category settings: play the greeting then record a message,
answer after the first ring. -/
def settingsDefault : ActionSettings :=
  { actions := ["greeting", "record_message"], greetingFile := "std.wav",
    ringsBeforeAnswer := 1 }

/-- Configuration with both screening modes enabled. -/
def cfgBoth : Config :=
  { screeningMode := ["whitelist", "blacklist"], permitted := settingsDefault,
    screened := settingsDefault, blockedCfg := settingsDefault }

/-- Configuration with only the whitelist mode enabled. -/
def cfgWhitelistOnly : Config := { cfgBoth with screeningMode := ["whitelist"] }

/-- Configuration with no screening mode enabled, whose `SCREENED_` block
configures only the `record_message` action. -/
def cfgScreenedRecord : Config :=
  { screeningMode := [],
    permitted := settingsDefault,
    screened := { actions := ["record_message"], greetingFile := "std.wav",
                  ringsBeforeAnswer := 1 },
    blockedCfg := settingsDefault }

/-- Collaborators that all succeed: the caller is whitelisted, the logger
returns call record 1, every ring signal arrives in time. -/
def oracleHappy : Oracles :=
  { whitelistRes := Except.ok (true, "whitelisted"),
    blacklistRes := Except.ok (false, ""),
    logRes := Except.ok 1,
    signals := fun _ => true,
    device := devAllOK }

/-- Like `oracleHappy`, but the whitelist membership lookup raises a
database error. -/
def oracleWhitelistRaises : Oracles :=
  { oracleHappy with whitelistRes := Except.error sqliteErr }

/-- Like `oracleHappy`, but the `record_message` action raises an
`OSError`. -/
def oracleRecordFails : Oracles := { oracleHappy with device := devRecordFails }

/-- Like `oracleHappy`, but the caller is also blacklisted (with a
blacklist reason that would apply if the blacklist were consulted). -/
def oracleBothListed : Oracles :=
  { oracleHappy with blacklistRes := Except.ok (true, "blacklisted") }

/-- Like `oracleHappy`, but the whitelist misses and returns a non-empty
no-match reason string. -/
def oracleNoMatch : Oracles :=
  { oracleHappy with whitelistRes := Except.ok (false, "no match") }

/-- A caller with a ten-digit number. -/
def callerA : Caller := { nmbr := some "5551234567" }

/-- A second caller, queued behind `callerA`. -/
def callerB : Caller := { nmbr := some "5559998888" }

/-! ## Helper lemmas: the ring-wait loop -/

theorem ringWaitGo_eligible_iff (signals : Nat → Bool) :
    ∀ fuel i rc, (ringWaitGo signals i rc fuel).1 = true ↔
      ∀ k, k < fuel → signals (i + k) = true := by
  intro fuel
  induction fuel with
  | zero => intro i rc; simp [ringWaitGo]
  | succ n ih =>
    intro i rc
    by_cases h : signals i = true
    · simp only [ringWaitGo, h, if_true]
      rw [ih (i + 1) (rc + 1)]
      constructor
      · intro hall k hk
        cases k with
        | zero => simpa using h
        | succ m =>
          have := hall m (by omega)
          simpa [Nat.add_comm, Nat.add_assoc, Nat.add_left_comm] using this
      · intro hall k hk
        have := hall (k + 1) (by omega)
        simpa [Nat.add_comm, Nat.add_assoc, Nat.add_left_comm] using this
    · simp only [Bool.not_eq_true] at h
      simp only [ringWaitGo, h]
      constructor
      · intro hfalse; simp at hfalse
      · intro hall
        have := hall 0 (by omega)
        simp [h] at this

theorem ringWaitGo_all_true (signals : Nat → Bool) :
    ∀ fuel i rc, (∀ k, k < fuel → signals (i + k) = true) →
      ringWaitGo signals i rc fuel = (true, rc + fuel, List.range' i fuel) := by
  intro fuel
  induction fuel with
  | zero => intro i rc _; simp [ringWaitGo]
  | succ n ih =>
    intro i rc hall
    have h0 : signals i = true := by simpa using hall 0 (by omega)
    have hrest : ∀ k, k < n → signals (i + 1 + k) = true := by
      intro k hk
      have := hall (k + 1) (by omega)
      simpa [Nat.add_comm, Nat.add_assoc, Nat.add_left_comm] using this
    simp only [ringWaitGo, h0, if_true, ih (i + 1) (rc + 1) hrest,
      List.range'_succ, Prod.mk.injEq]
    exact ⟨trivial, by omega, trivial⟩

theorem ringWaitGo_first_false (signals : Nat → Bool) :
    ∀ k fuel i rc, k < fuel → signals (i + k) = false →
      (∀ m, m < k → signals (i + m) = true) →
      ringWaitGo signals i rc fuel = (false, rc + k, List.range' i (k + 1)) := by
  intro k
  induction k with
  | zero =>
    intro fuel i rc hk hfalse _
    match fuel, hk with
    | n + 1, _ =>
      simp only [Nat.add_zero] at hfalse
      simp [ringWaitGo, hfalse]
  | succ j ih =>
    intro fuel i rc hk hfalse hbefore
    match fuel, hk with
    | n + 1, hk =>
      have h0 : signals i = true := by simpa using hbefore 0 (by omega)
      have hfalse' : signals (i + 1 + j) = false := by
        have : i + 1 + j = i + (j + 1) := by omega
        rw [this]; exact hfalse
      have hbefore' : ∀ m, m < j → signals (i + 1 + m) = true := by
        intro m hm
        have := hbefore (m + 1) (by omega)
        simpa [Nat.add_comm, Nat.add_assoc, Nat.add_left_comm] using this
      simp only [ringWaitGo, h0, if_true,
        ih n (i + 1) (rc + 1) (by omega) hfalse' hbefore',
        List.range'_succ, Prod.mk.injEq]
      exact ⟨trivial, by omega, trivial⟩

theorem ringWaitGo_idxs_range' (signals : Nat → Bool) :
    ∀ fuel i rc, ∃ m, m ≤ fuel ∧
      (ringWaitGo signals i rc fuel).2.2 = List.range' i m := by
  intro fuel
  induction fuel with
  | zero => intro i rc; exact ⟨0, Nat.le_refl 0, rfl⟩
  | succ n ih =>
    intro i rc
    by_cases h : signals i = true
    · obtain ⟨m, hm, heq⟩ := ih (i + 1) (rc + 1)
      refine ⟨m + 1, by omega, ?_⟩
      simp only [ringWaitGo, h, if_true, heq, List.range'_succ]
    · simp only [Bool.not_eq_true] at h
      refine ⟨1, by omega, ?_⟩
      simp [ringWaitGo, h]

/-! ## Claim C4: the ring wait fully characterizes eligibility -/

/-- C4: with `rings_before_answer <= 1` the ring wait yields
`ok_to_answer = true` immediately, performing no wait on the ring signal;
with `rings_before_answer = N > 1` it yields `ok_to_answer = true` iff the
`N - 1` additional ring signals each arrive within the per-ring timeout,
and yields `false` as soon as one wait times out (having performed exactly
the waits up to and including the one that timed out). -/
theorem ringWait_characterizes_eligibility (N : Nat) (signals : Nat → Bool) :
    (N ≤ 1 → awaitEligibility N signals = (true, 1, [])) ∧
    (1 < N → ((awaitEligibility N signals).1 = true ↔
      ∀ k, k < N - 1 → signals k = true)) ∧
    (∀ j, j < N - 1 → signals j = false → (∀ m, m < j → signals m = true) →
      awaitEligibility N signals = (false, 1 + j, List.range' 0 (j + 1))) := by
  refine ⟨?_, ?_, ?_⟩
  · intro h
    have h0 : N - 1 = 0 := by omega
    rw [awaitEligibility, h0]
    rfl
  · intro _
    rw [awaitEligibility, ringWaitGo_eligible_iff]
    constructor
    · intro hall k hk; simpa using hall k hk
    · intro hall k hk; simpa using hall k hk
  · intro j hj hfalse hbefore
    rw [awaitEligibility,
      ringWaitGo_first_false signals j (N - 1) 0 1 hj (by simpa using hfalse)
        (by intro m hm; simpa using hbefore m hm)]

/-- Witness for C4 at concrete inputs: `N = 1` (immediate eligibility,
no wait), `N = 3` with all signals arriving (eligible), and `N = 3` with
the second wait timing out (ineligible after two waits). -/
theorem ringWait_characterizes_eligibility_witness :
    (awaitEligibility 1 (fun _ => false) = (true, 1, [])) ∧
    ((awaitEligibility 3 (fun _ => true)).1 = true ↔
      ∀ k, k < 2 → (fun _ => true) k = true) ∧
    (awaitEligibility 3 (fun k => k == 0) = (false, 2, List.range' 0 2)) :=
  ⟨(ringWait_characterizes_eligibility 1 (fun _ => false)).1 (by decide),
   (ringWait_characterizes_eligibility 3 (fun _ => true)).2.1 (by decide),
   (ringWait_characterizes_eligibility 3 (fun k => k == 0)).2.2 1 (by decide)
     (by decide) (by decide)⟩

/-! ## Claim C5: no replay of an already-counted ring pulse -/

/-- C5: each iteration of the ring-wait loop waits on a fresh pulse window
(the signal source having been reset after the previous consumption, per
the spec's model of the modem's resettable ring signal): the pulse windows
observed by the loop are exactly `0, 1, ..., m-1` for some `m`, in order,
with no window observed twice — so no already-counted pulse can satisfy a
later wait. -/
theorem ringWait_no_replay (N : Nat) (signals : Nat → Bool) :
    ∃ m, (awaitEligibility N signals).2.2 = List.range' 0 m ∧
      ((awaitEligibility N signals).2.2).Nodup ∧
      ((awaitEligibility N signals).2.2).Pairwise (· < ·) := by
  obtain ⟨m, _, heq⟩ := ringWaitGo_idxs_range' signals (N - 1) 0 1
  rw [awaitEligibility]
  refine ⟨m, heq, ?_, ?_⟩
  · rw [heq]; exact List.nodup_range' 0 m
  · rw [heq]; exact List.pairwise_lt_range' 0 m

/-! ## Helper lemmas: answer_call -/

theorem runActions_no_hangUp (dev : Device) (actions : List String)
    (greeting : String) (callNo : Nat) :
    Event.hangUp ∉ (runActions dev actions greeting callNo).1 := by
  cases hpa : dev.playAudioRes <;>
  by_cases hg : "greeting" ∈ actions <;>
  by_cases hr : "record_message" ∈ actions <;>
  by_cases hv : "voice_mail" ∈ actions <;>
  simp [runActions, hpa, hg, hr, hv]

theorem runActions_not_both (dev : Device) (actions : List String)
    (greeting : String) (callNo : Nat) :
    ¬(hasRecord (runActions dev actions greeting callNo).1 = true ∧
      hasMenu (runActions dev actions greeting callNo).1 = true) := by
  cases hpa : dev.playAudioRes <;>
  by_cases hg : "greeting" ∈ actions <;>
  by_cases hr : "record_message" ∈ actions <;>
  by_cases hv : "voice_mail" ∈ actions <;>
  simp [runActions, hpa, hg, hr, hv, hasRecord, hasMenu, isRecordEvt, isMenuEvt]

theorem runActions_menu_needs_no_record (dev : Device) (actions : List String)
    (greeting : String) (callNo : Nat) :
    hasMenu (runActions dev actions greeting callNo).1 = true →
    actions.contains "record_message" = false := by
  cases hpa : dev.playAudioRes <;>
  by_cases hg : "greeting" ∈ actions <;>
  by_cases hr : "record_message" ∈ actions <;>
  by_cases hv : "voice_mail" ∈ actions <;>
  simp [runActions, hpa, hg, hr, hv, hasRecord, hasMenu, isRecordEvt, isMenuEvt]

theorem runActions_record_precedence (dev : Device) (actions : List String)
    (greeting : String) (callNo : Nat)
    (hr : "record_message" ∈ actions)
    (hgOK : "greeting" ∈ actions → dev.playAudioRes = none) :
    hasRecord (runActions dev actions greeting callNo).1 = true ∧
    hasMenu (runActions dev actions greeting callNo).1 = false := by
  by_cases hg : "greeting" ∈ actions
  · have hpa := hgOK hg
    simp [runActions, hpa, hg, hr, hasRecord, hasMenu, isRecordEvt, isMenuEvt]
  · simp [runActions, hg, hr, hasRecord, hasMenu, isRecordEvt, isMenuEvt]

theorem answerCall_hasRecord (dev : Device) (actions : List String)
    (greeting : String) (callNo : Nat) :
    hasRecord (answerCall dev actions greeting callNo).1 =
      (dev.pickUpRes && hasRecord (runActions dev actions greeting callNo).1) := by
  by_cases h : dev.pickUpRes = true <;>
  simp [answerCall, h, hasRecord, isRecordEvt, List.any_append]

theorem answerCall_hasMenu (dev : Device) (actions : List String)
    (greeting : String) (callNo : Nat) :
    hasMenu (answerCall dev actions greeting callNo).1 =
      (dev.pickUpRes && hasMenu (runActions dev actions greeting callNo).1) := by
  by_cases h : dev.pickUpRes = true <;>
  simp [answerCall, h, hasMenu, isMenuEvt, List.any_append]

/-! ## Claim C2: hang_up exactly once per successful pick_up -/

/-- C2: in every invocation of `answer_call`, when `pick_up()` succeeds
the trace contains exactly one `hang_up` and it is the last interaction
before returning — on every exit path, including action failure and
skipped actions; when `pick_up()` fails, `hang_up` is never called. -/
theorem answerCall_balanced_release (dev : Device) (actions : List String)
    (greeting : String) (callNo : Nat) :
    ((answerCall dev actions greeting callNo).1.count Event.hangUp =
      if dev.pickUpRes then 1 else 0) ∧
    ((answerCall dev actions greeting callNo).1.getLast? =
      some (if dev.pickUpRes then Event.hangUp else Event.pickUp)) := by
  by_cases h : dev.pickUpRes = true
  · have hnot := runActions_no_hangUp dev actions greeting callNo
    refine ⟨?_, ?_⟩
    · simp [answerCall, h, List.count_append, List.count_cons,
        List.count_eq_zero.mpr hnot]
    · simp only [answerCall, h, if_true]
      rw [List.getLast?_concat]
  · simp only [Bool.not_eq_true] at h
    simp [answerCall, h]

/-! ## Claim C6: record_message and voice_mail are mutually exclusive -/

/-- C6: `record_message` and `voice_mail` are never both executed for the
same call; when both are configured in the plan (and execution reaches the
dispatch point: `pick_up()` succeeded and the greeting, if configured, did
not raise) `record_message` is executed and `voice_mail` is not; and
`voice_mail` is only ever attempted when `record_message` is absent from
the plan. -/
theorem record_voicemail_mutually_exclusive (dev : Device)
    (actions : List String) (greeting : String) (callNo : Nat) :
    (¬(hasRecord (answerCall dev actions greeting callNo).1 = true ∧
       hasMenu (answerCall dev actions greeting callNo).1 = true)) ∧
    ("record_message" ∈ actions → "voice_mail" ∈ actions →
      dev.pickUpRes = true →
      ("greeting" ∈ actions → dev.playAudioRes = none) →
      hasRecord (answerCall dev actions greeting callNo).1 = true ∧
      hasMenu (answerCall dev actions greeting callNo).1 = false) ∧
    (hasMenu (answerCall dev actions greeting callNo).1 = true →
      actions.contains "record_message" = false) := by
  refine ⟨?_, ?_, ?_⟩
  · rw [answerCall_hasRecord, answerCall_hasMenu]
    intro ⟨h1, h2⟩
    exact runActions_not_both dev actions greeting callNo
      ⟨(Bool.and_eq_true _ _ ▸ h1).2, (Bool.and_eq_true _ _ ▸ h2).2⟩
  · intro hr _ hp hgOK
    have := runActions_record_precedence dev actions greeting callNo hr hgOK
    rw [answerCall_hasRecord, answerCall_hasMenu, hp, this.1, this.2]
    exact ⟨rfl, rfl⟩
  · rw [answerCall_hasMenu]
    intro h
    exact runActions_menu_needs_no_record dev actions greeting callNo
      (Bool.and_eq_true _ _ ▸ h).2

/-- Witness for C6: with `pick_up()` succeeding, no action raising, and
both `record_message` and `voice_mail` configured, `record_message` runs
and `voice_mail` does not. -/
theorem record_voicemail_mutually_exclusive_witness :
    hasRecord (answerCall devAllOK ["greeting", "record_message", "voice_mail"]
      "std.wav" 1).1 = true ∧
    hasMenu (answerCall devAllOK ["greeting", "record_message", "voice_mail"]
      "std.wav" 1).1 = false :=
  (record_voicemail_mutually_exclusive devAllOK
      ["greeting", "record_message", "voice_mail"] "std.wav" 1).2.1
    (by decide) (by decide) (by decide) (fun _ => by decide)

/-! ## Helper lemmas: screening -/

theorem screenAfterWhitelist_no_pickUp (cfg : Config) (o : Oracles) (p : Bool)
    (a r : String) (evts : List Event) (hevts : Event.pickUp ∉ evts) :
    Event.pickUp ∉ (screenAfterWhitelist cfg o p a r evts).1 := by
  unfold screenAfterWhitelist
  split
  · cases hb : o.blacklistRes with
    | error e => simp [hevts]
    | ok pr =>
      rcases pr with ⟨isB, rb⟩
      by_cases hib : isB = true <;> simp [hib, hevts]
  · split <;> simp [hevts]

theorem screen_no_pickUp (cfg : Config) (o : Oracles) :
    ∀ e ∈ (screen cfg o).1, e ≠ Event.pickUp := by
  intro e he
  intro rfl_e
  subst rfl_e
  revert he
  unfold screen
  split
  · cases hw : o.whitelistRes with
    | error e => simp
    | ok pr =>
      rcases pr with ⟨isW, rw0⟩
      by_cases hiw : isW = true <;>
        simp only [hiw, if_true, if_false, Bool.false_eq_true] <;>
        exact fun h => screenAfterWhitelist_no_pickUp cfg o _ _ _ _ (by simp) h
  · exact fun h => screenAfterWhitelist_no_pickUp cfg o _ _ _ _ (by simp) h

/-! ## Claim C3: a whitelist match short-circuits the blacklist -/

/-- C3: whenever `"whitelist"` is among the enabled screening modes and
the whitelist membership check returns a match, the classification is
`"Permitted"` and the blacklist membership collaborator is never
consulted — regardless of whether `"blacklist"` is enabled and of what
the blacklist lookup would have returned. -/
theorem whitelist_match_short_circuits (cfg : Config) (o : Oracles)
    (r : String)
    (hmode : "whitelist" ∈ cfg.screeningMode)
    (hres : o.whitelistRes = Except.ok (true, r)) :
    screen cfg o = ([Event.checkWhitelist, Event.blinkApproved],
      Except.ok { permitted := true, blocked := false, screened := false,
                  action := "Permitted", reason := r }) ∧
    Event.checkBlacklist ∉ (screen cfg o).1 := by
  have h1 : screen cfg o = ([Event.checkWhitelist, Event.blinkApproved],
      Except.ok { permitted := true, blocked := false, screened := false,
                  action := "Permitted", reason := r }) := by
    simp [screen, screenAfterWhitelist, hmode, hres]
  refine ⟨h1, ?_⟩
  rw [h1]
  simp

/-- Witness for C3: both modes enabled and the caller present on both
lists — the whitelist match still wins and the blacklist is not consulted. -/
theorem whitelist_match_short_circuits_witness :
    screen cfgBoth oracleBothListed =
      ([Event.checkWhitelist, Event.blinkApproved],
        Except.ok { permitted := true, blocked := false, screened := false,
                    action := "Permitted", reason := "whitelisted" }) ∧
    Event.checkBlacklist ∉ (screen cfgBoth oracleBothListed).1 :=
  whitelist_match_short_circuits cfgBoth oracleBothListed "whitelisted"
    (by decide) rfl

/-! ## Claim C8: default classification is Screened -/

/-- Counterexample to C8: with only the whitelist enabled and the
whitelist lookup returning a miss with the non-empty reason string
`"no match"`, the classification is `"Screened"` but the accompanying
reason is `"no match"`, not the empty/default reason — the tuple
unpacking `is_whitelisted, reason = ...` in `run` overwrites `reason`
even on a miss, and the `Screened` branch does not reset it. -/
theorem screened_reason_not_default :
    (screen cfgWhitelistOnly oracleNoMatch).2 =
      Except.ok { permitted := false, blocked := false, screened := true,
                  action := "Screened", reason := "no match" } ∧
    "no match" ≠ "" := by
  constructor
  · rfl
  · decide

/-- C8 as amended: for every caller for which neither branch assigns a
category, the classification is `"Screened"`, and the reason is the empty
string when neither mode is enabled; when a membership check was
consulted, the reason is whatever no-match reason string the last
consulted collaborator returned (the blacklist's if `"blacklist"` is
enabled, else the whitelist's). -/
theorem screen_unmatched_is_screened (cfg : Config) (o : Oracles)
    (rWhite rBlack : String) :
    ("whitelist" ∉ cfg.screeningMode → "blacklist" ∉ cfg.screeningMode →
      screen cfg o = ([Event.blinkApproved],
        Except.ok { permitted := false, blocked := false, screened := true,
                    action := "Screened", reason := "" })) ∧
    ("whitelist" ∈ cfg.screeningMode → "blacklist" ∉ cfg.screeningMode →
      o.whitelistRes = Except.ok (false, rWhite) →
      screen cfg o = ([Event.checkWhitelist, Event.blinkApproved],
        Except.ok { permitted := false, blocked := false, screened := true,
                    action := "Screened", reason := rWhite })) ∧
    ("blacklist" ∈ cfg.screeningMode →
      ("whitelist" ∈ cfg.screeningMode → o.whitelistRes = Except.ok (false, rWhite)) →
      o.blacklistRes = Except.ok (false, rBlack) →
      (screen cfg o).2 =
        Except.ok { permitted := false, blocked := false, screened := true,
                    action := "Screened", reason := rBlack }) := by
  refine ⟨?_, ?_, ?_⟩
  · intro hw hb
    simp [screen, screenAfterWhitelist, hw, hb]
  · intro hw hb hres
    simp [screen, screenAfterWhitelist, hw, hb, hres]
  · intro hb hwres hbres
    by_cases hw : "whitelist" ∈ cfg.screeningMode
    · simp [screen, screenAfterWhitelist, hw, hb, hwres hw, hbres]
    · simp [screen, screenAfterWhitelist, hw, hb, hbres]

/-- Witness for C8 as amended, at each of the three mode combinations:
no mode enabled, whitelist only (miss with reason `"w-miss"`), and both
modes (both missing, blacklist reason `"b-miss"` winning). -/
theorem screen_unmatched_is_screened_witness :
    (screen cfgScreenedRecord oracleHappy = ([Event.blinkApproved],
      Except.ok { permitted := false, blocked := false, screened := true,
                  action := "Screened", reason := "" })) ∧
    (screen cfgWhitelistOnly { oracleHappy with
        whitelistRes := Except.ok (false, "w-miss") } =
      ([Event.checkWhitelist, Event.blinkApproved],
        Except.ok { permitted := false, blocked := false, screened := true,
                    action := "Screened", reason := "w-miss" })) ∧
    ((screen cfgBoth { oracleHappy with
        whitelistRes := Except.ok (false, "w-miss"),
        blacklistRes := Except.ok (false, "b-miss") }).2 =
      Except.ok { permitted := false, blocked := false, screened := true,
                  action := "Screened", reason := "b-miss" }) :=
  ⟨(screen_unmatched_is_screened cfgScreenedRecord oracleHappy "" "").1
      (by decide) (by decide),
   (screen_unmatched_is_screened cfgWhitelistOnly
      { oracleHappy with whitelistRes := Except.ok (false, "w-miss") }
      "w-miss" "").2.1 (by decide) (by decide) rfl,
   (screen_unmatched_is_screened cfgBoth
      { oracleHappy with
        whitelistRes := Except.ok (false, "w-miss"),
        blacklistRes := Except.ok (false, "b-miss") }
      "w-miss" "b-miss").2.2 (by decide) (fun _ => rfl) rfl⟩

/-! ## Claim C7: every call is logged, before any answer attempt -/

theorem processCall_trace_split (cfg : Config) (o : Oracles) (c : Caller)
    (num : String) (s : ScreenOut) (sevts : List Event)
    (hn : c.nmbr = some num) (hsc : screen cfg o = (sevts, Except.ok s)) :
    ∃ post, (processCall cfg o c).1 =
      sevts ++ Event.logCaller s.action s.reason :: post := by
  cases hlog : o.logRes with
  | error e =>
    refine ⟨[], ?_⟩
    simp [processCall, hn, hsc, hlog]
  | ok callNo =>
    have key : ∀ st : ActionSettings,
        (if s.permitted then cfg.permitted
         else if s.screened then cfg.screened else cfg.blockedCfg) = st →
        ∃ post, (processCall cfg o c).1 =
          sevts ++ Event.logCaller s.action s.reason :: post := by
      intro st hst
      by_cases hc : ((awaitEligibility st.ringsBeforeAnswer o.signals).1
          && decide (0 < st.actions.length)) = true
      · exact ⟨(awaitEligibility st.ringsBeforeAnswer o.signals).2.2.map
            Event.ringWaitEvt
            ++ (answerCall o.device st.actions st.greetingFile callNo).1,
          by simp [processCall, hn, hsc, hlog, hst, hc, List.append_assoc]⟩
      · exact ⟨(awaitEligibility st.ringsBeforeAnswer o.signals).2.2.map
            Event.ringWaitEvt,
          by simp [processCall, hn, hsc, hlog, hst, hc, List.append_assoc]⟩
    exact key _ rfl

/-- C7: for every processed call whose screening completes (no membership
collaborator raised), `log_caller` is invoked with the assigned category
and reason, and every interaction that precedes it in the trace is a
screening/indicator interaction — in particular no `pick_up` (no answer
attempt) happens before logging.  Since the logging event is present in
the trace unconditionally, the call is logged whether the ring wait ends
ineligible, the action set is empty, or channel acquisition fails. -/
theorem call_logged_before_answer (cfg : Config) (o : Oracles) (c : Caller)
    (num : String) (s : ScreenOut)
    (hn : c.nmbr = some num) (hs : (screen cfg o).2 = Except.ok s) :
    ∃ pre post, (processCall cfg o c).1 =
        pre ++ Event.logCaller s.action s.reason :: post ∧
      ∀ e ∈ pre, e ≠ Event.pickUp := by
  rcases hsc : screen cfg o with ⟨sevts, res⟩
  rw [hsc] at hs
  simp only at hs
  subst hs
  obtain ⟨post, hpost⟩ := processCall_trace_split cfg o c num s sevts hn hsc
  refine ⟨sevts, post, hpost, fun e he => ?_⟩
  exact screen_no_pickUp cfg o e (by rw [hsc]; exact he)

/-- Witness for C7: the whitelisted caller `callerA` with all
collaborators succeeding is logged as `"Permitted"` before any `pick_up`. -/
theorem call_logged_before_answer_witness :
    ∃ pre post, (processCall cfgBoth oracleHappy callerA).1 =
        pre ++ Event.logCaller "Permitted" "whitelisted" :: post ∧
      ∀ e ∈ pre, e ≠ Event.pickUp :=
  call_logged_before_answer cfgBoth oracleHappy callerA "5551234567"
    { permitted := true, blocked := false, screened := false,
      action := "Permitted", reason := "whitelisted" } rfl rfl

/-! ## Claim C1: fate of per-call errors in the run loop -/

/-- Counterexample to C1: a per-call error (here the whitelist membership
lookup raising a database error — a classification failure, not an
ingestion/queue failure) makes `run` return 1: only the failing call's
trace is produced, and the second queued caller is never popped.  The
`except` clause of the loop body ends in `return 1` for every exception,
so the run loop does not continue to the next caller. -/
theorem per_call_failure_terminates_loop :
    runLoop cfgWhitelistOnly
        [(callerA, oracleWhitelistRaises), (callerB, oracleHappy)] =
      ([[Event.checkWhitelist]], some 1) := by
  rfl

/-- C1 as amended: an error raised while handling one call (during
classification, logging, ring wait, or answering) is caught at the call
boundary by the loop's `except Exception` clause and reported, but the
run loop then returns 1: every error is fatal to the engine — per-call
and ingestion failures alike — and no subsequent queued caller is
processed. -/
theorem run_loop_fatal_on_any_error (cfg : Config) (c : Caller)
    (o : Oracles) (rest : List (Caller × Oracles)) (e : Exn)
    (h : (processCall cfg o c).2 = some e) :
    runLoop cfg ((c, o) :: rest) = ([(processCall cfg o c).1], some 1) := by
  cases hp : processCall cfg o c with
  | mk evts exn =>
    rw [hp] at h
    simp only at h
    subst h
    simp [runLoop, hp]

/-- Witness for C1 as amended: the failing whitelist lookup terminates
the loop after the first call, the second caller left unprocessed. -/
theorem run_loop_fatal_on_any_error_witness :
    runLoop cfgWhitelistOnly
        [(callerA, oracleWhitelistRaises), (callerB, oracleHappy)] =
      ([(processCall cfgWhitelistOnly oracleWhitelistRaises callerA).1],
        some 1) :=
  run_loop_fatal_on_any_error cfgWhitelistOnly callerA oracleWhitelistRaises
    [(callerB, oracleHappy)] sqliteErr rfl

/-! ## Claim C9: fate of answer-action failures -/

/-- Counterexample to C9: an `OSError` raised by the `record_message`
action is not caught locally in `answer_call` — only `RuntimeError` is —
so it escapes `answer_call` (the channel is still released on the way
out), and the run loop, far from continuing to the next call, terminates
with return value 1: the second queued caller is never processed. -/
theorem action_failure_escapes_answer_call :
    ((answerCall devRecordFails ["record_message"] "std.wav" 1).2 =
      some { runtimeError := false, msg := "OSError" }) ∧
    Event.hangUp ∈ (answerCall devRecordFails ["record_message"] "std.wav" 1).1 ∧
    (runLoop cfgScreenedRecord
        [(callerA, oracleRecordFails), (callerB, oracleHappy)]).2 = some 1 ∧
    (runLoop cfgScreenedRecord
        [(callerA, oracleRecordFails), (callerB, oracleHappy)]).1.length = 1 := by
  refine ⟨rfl, ?_, rfl, rfl⟩
  decide

/-- C9 as amended: an action failure of class `RuntimeError` is caught
locally inside `answer_call` and does not escape; the channel is released
(`hang_up` appears in the trace) whatever the exception's class; a
greeting failure abandons the remaining actions of the call; and whenever
the per-call processing ends without an escaping exception, the run loop
continues with the next queued caller.  Failures of other classes escape
`answer_call` (see the counterexample) and terminate the loop. -/
theorem runtime_action_failure_contained (dev : Device)
    (actions : List String) (greeting : String) (callNo : Nat) (e : Exn) :
    (dev.pickUpRes = true →
      (runActions dev actions greeting callNo).2 = some e →
      (answerCall dev actions greeting callNo).2 =
        (if e.runtimeError then none else some e) ∧
      Event.hangUp ∈ (answerCall dev actions greeting callNo).1) ∧
    (dev.pickUpRes = true → "greeting" ∈ actions →
      dev.playAudioRes = some e →
      hasRecord (answerCall dev actions greeting callNo).1 = false ∧
      hasMenu (answerCall dev actions greeting callNo).1 = false) ∧
    (∀ (cfg : Config) (c : Caller) (o : Oracles)
        (rest : List (Caller × Oracles)),
      (processCall cfg o c).2 = none →
      runLoop cfg ((c, o) :: rest) =
        ((processCall cfg o c).1 :: (runLoop cfg rest).1,
          (runLoop cfg rest).2)) := by
  refine ⟨?_, ?_, ?_⟩
  · intro hp hbody
    constructor
    · simp [answerCall, hp, hbody]
    · simp [answerCall, hp]
  · intro hp hg hpa
    rw [answerCall_hasRecord, answerCall_hasMenu]
    simp [runActions, hp, hg, hpa, hasRecord, hasMenu, isRecordEvt, isMenuEvt]
  · intro cfg c o rest h
    cases hp : processCall cfg o c with
    | mk evts exn =>
      rw [hp] at h
      simp only at h
      subst h
      simp [runLoop, hp]

/-- Witness for C9 as amended: a `RuntimeError` from `record_message` is
swallowed (`answer_call` escapes no exception, `hang_up` still called),
and the loop then continues: with such a first caller queued before
`callerB`, both calls are processed and the loop keeps waiting. -/
theorem runtime_action_failure_contained_witness :
    ((answerCall
        { devAllOK with
          recordRes := some { runtimeError := true, msg := "RuntimeError" } }
        ["record_message"] "std.wav" 1).2 =
      (if ({ runtimeError := true, msg := "RuntimeError" } : Exn).runtimeError
        then none else some { runtimeError := true, msg := "RuntimeError" }) ∧
      Event.hangUp ∈ (answerCall
        { devAllOK with
          recordRes := some { runtimeError := true, msg := "RuntimeError" } }
        ["record_message"] "std.wav" 1).1) ∧
    (runLoop cfgScreenedRecord
        ((callerA, { oracleHappy with
          device := { devAllOK with
            recordRes := some { runtimeError := true, msg := "RuntimeError" } } })
          :: [(callerB, oracleHappy)]) =
      ((processCall cfgScreenedRecord
          { oracleHappy with
            device := { devAllOK with
              recordRes := some { runtimeError := true, msg := "RuntimeError" } } }
          callerA).1
        :: (runLoop cfgScreenedRecord [(callerB, oracleHappy)]).1,
        (runLoop cfgScreenedRecord [(callerB, oracleHappy)]).2)) :=
  ⟨(runtime_action_failure_contained
      { devAllOK with
        recordRes := some { runtimeError := true, msg := "RuntimeError" } }
      ["record_message"] "std.wav" 1
      { runtimeError := true, msg := "RuntimeError" }).1 rfl rfl,
   (runtime_action_failure_contained devAllOK [] "std.wav" 1
      { runtimeError := true, msg := "RuntimeError" }).2.2
      cfgScreenedRecord callerA
      { oracleHappy with
        device := { devAllOK with
          recordRes := some { runtimeError := true, msg := "RuntimeError" } } }
      [(callerB, oracleHappy)] rfl⟩

/-! ## Claim C10: the NMBR key is an unvalidated precondition -/

/-- C10: `handle_caller` enqueues any caller dict unchanged, with no
validation; but the per-call handling of `run` reads `caller["NMBR"]`
before anything else, so a dequeued caller without that key raises
`KeyError` with an empty interaction trace: no screening check, no
indicator, and no `log_caller` invocation ever happens for it — the
caller is never classified or logged. -/
theorem missing_nmbr_raises_before_screening :
    (∀ (cfg : Config) (o : Oracles) (nm : Option String),
      processCall cfg o { nmbr := none, name := nm } =
        ([], some keyErrorNMBR)) ∧
    (∀ (q : List Caller) (c : Caller), handleCaller q c = q ++ [c]) :=
  ⟨fun _ _ _ => rfl, fun _ _ => rfl⟩
